import Mathlib

/-!
Shallow embedding of the audio synthesis core of `src/main.rs` (the
"stardust" toy polyphonic synthesizer): the waveform generator, the note
table and key mapping, the shared synth state with its update function, and
the per-sample mixing and sample-clock logic of the render callback.
Floating-point (`f32`) arithmetic is idealized as real arithmetic.
-/

/-- The Rust floating-point remainder `x % 1.0`: `x` minus its truncation
toward zero. -/
noncomputable def rustRem1 (x : ℝ) : ℝ := x - if 0 ≤ x then (⌊x⌋ : ℝ) else (⌈x⌉ : ℝ)

/-- `enum WaveShape` from the source. -/
inductive WaveShape where
  | Sine
  | Triangle
  | Saw
  | Square
deriving DecidableEq

/-- `WaveShape::generate_sample` from the source, with `f32` idealized as ℝ. -/
noncomputable def WaveShape.generate_sample (shape : WaveShape)
    (sample_clock freq sample_rate : ℝ) : ℝ :=
  match shape with
  | .Sine => Real.sin (sample_clock * freq * 2 * Real.pi / sample_rate)
  | .Saw =>
      let phase := rustRem1 (sample_clock * freq / sample_rate)
      2 * phase - 1
  | .Square =>
      let phase := rustRem1 (sample_clock * freq / sample_rate)
      if phase < 0.5 then 1 else -1
  | .Triangle =>
      let phase := rustRem1 (sample_clock * freq / sample_rate)
      4 * |phase - 0.5| - 1

/-- `enum Note` from the source: the 30 playable notes C3..F5. -/
inductive Note where
  | C3 | CSharp3 | D3 | DSharp3 | E3 | F3 | FSharp3 | G3 | GSharp3 | A3
  | ASharp3 | B3
  | C4 | CSharp4 | D4 | DSharp4 | E4 | F4 | FSharp4 | G4 | GSharp4 | A4
  | ASharp4 | B4
  | C5 | CSharp5 | D5 | DSharp5 | E5 | F5
deriving DecidableEq

/-- `Note::freq` from the source: the hard-coded frequency table. -/
noncomputable def Note.freq : Note → ℝ
  | .C3 => 130.81
  | .CSharp3 => 138.59
  | .D3 => 146.83
  | .DSharp3 => 155.56
  | .E3 => 164.81
  | .F3 => 174.61
  | .FSharp3 => 185.00
  | .G3 => 196.00
  | .GSharp3 => 207.65
  | .A3 => 220.00
  | .ASharp3 => 233.08
  | .B3 => 246.94
  | .C4 => 261.63
  | .CSharp4 => 277.18
  | .D4 => 293.66
  | .DSharp4 => 311.13
  | .E4 => 329.63
  | .F4 => 349.23
  | .FSharp4 => 369.99
  | .G4 => 392.00
  | .GSharp4 => 415.30
  | .A4 => 440.00
  | .ASharp4 => 466.16
  | .B4 => 493.88
  | .C5 => 523.25
  | .CSharp5 => 554.37
  | .D5 => 587.33
  | .DSharp5 => 622.25
  | .E5 => 659.25
  | .F5 => 698.46

/-- The keyboard key type of the UI layer (iced `Key`), reduced to what the
source's `TryFrom<Key> for Note` match distinguishes: a character key with
its string, or any non-character key (named keys abstracted to an index). -/
inductive Key where
  | Character (s : String)
  | Named (idx : Nat)
  | Unidentified
deriving DecidableEq

/-- `TryFrom<Key> for Note` from the source (`Result<Note, ()>` as
`Option`): the Rust match on `char.as_str()` with string-literal arms is
embedded as the equivalent chain of string-equality tests, one per arm in
source order, with `none` for the catch-all arms. -/
def Note.try_from (key : Key) : Option Note :=
  match key with
  | .Character s =>
      if s = "z" then some .C3
      else if s = "s" then some .CSharp3
      else if s = "x" then some .D3
      else if s = "d" then some .DSharp3
      else if s = "c" then some .E3
      else if s = "v" then some .F3
      else if s = "g" then some .FSharp3
      else if s = "b" then some .G3
      else if s = "h" then some .GSharp3
      else if s = "n" then some .A3
      else if s = "j" then some .ASharp3
      else if s = "m" then some .B3
      else if s = "q" then some .C4
      else if s = "2" then some .CSharp4
      else if s = "w" then some .D4
      else if s = "3" then some .DSharp4
      else if s = "e" then some .E4
      else if s = "r" then some .F4
      else if s = "5" then some .FSharp4
      else if s = "t" then some .G4
      else if s = "6" then some .GSharp4
      else if s = "y" then some .A4
      else if s = "7" then some .ASharp4
      else if s = "u" then some .B4
      else if s = "i" then some .C5
      else if s = "9" then some .CSharp5
      else if s = "o" then some .D5
      else if s = "0" then some .DSharp5
      else if s = "p" then some .E5
      else if s = "[" then some .F5
      else none
  | _ => none

/-- The 30 key strings that the source's match resolves to notes. -/
def mapped_keys : List String :=
  ["z", "s", "x", "d", "c", "v", "g", "b", "h", "n", "j", "m",
   "q", "2", "w", "3", "e", "r", "5", "t", "6", "y", "7", "u",
   "i", "9", "o", "0", "p", "["]

/-- `struct State` from the source: `HashSet<Note>` embedded as `Finset Note`. -/
structure State where
  active_notes : Finset Note
  wave_shape : WaveShape
deriving DecidableEq

/-- `enum Message` from the source. -/
inductive Message where
  | KeyPressed (key : Key)
  | KeyReleased (key : Key)
  | SineSelected
  | SawSelected
  | TriangleSelected
  | SquareSelected
  | None
deriving DecidableEq

/-- `App::update` from the source: the control-side mutation of the shared
state (the lock acquire/release around it is not part of the value it
computes). -/
def App.update (st : State) (message : Message) : State :=
  match message with
  | .KeyPressed key =>
      match Note.try_from key with
      | some note => { st with active_notes := insert note st.active_notes }
      | none => st
  | .KeyReleased key =>
      match Note.try_from key with
      | some note => { st with active_notes := st.active_notes.erase note }
      | none => st
  | .SineSelected => { st with wave_shape := WaveShape.Sine }
  | .SawSelected => { st with wave_shape := WaveShape.Saw }
  | .TriangleSelected => { st with wave_shape := WaveShape.Triangle }
  | .SquareSelected => { st with wave_shape := WaveShape.Square }
  | .None => st

/-- The body of the render callback's per-sample loop from `start_audio`:
accumulate `generate_sample` over the snapshotted note list, then write `0.0`
when the list is empty and otherwise the sum divided by the voice count times
the fixed `0.2` volume factor. -/
noncomputable def mix_sample (shape : WaveShape) (notes : List Note)
    (sample_clock sample_rate : ℝ) : ℝ :=
  let acc := notes.foldl
    (fun acc note => acc + shape.generate_sample sample_clock note.freq sample_rate) 0
  if notes.isEmpty then 0 else acc / (notes.length : ℝ) * 0.2

/-- The sample-clock advance at the end of each loop iteration in
`start_audio`: `sample_clock += 1.0; if sample_clock >= sample_rate
{ sample_clock = 0.0 }`. -/
noncomputable def step_clock (sample_rate sample_clock : ℝ) : ℝ :=
  if sample_clock + 1 ≥ sample_rate then 0 else sample_clock + 1

/-- The sample clock after `n` iterations of the render loop. -/
noncomputable def clockIter (sample_rate : ℝ) (sample_clock : ℝ) : Nat → ℝ
  | 0 => sample_clock
  | n + 1 => clockIter sample_rate (step_clock sample_rate sample_clock) n

/-- The sequence of output samples written by one invocation of the render
callback for a buffer of `n` slots, starting from the given sample clock:
each slot gets `mix_sample` at the current clock, then the clock steps. -/
noncomputable def render_loop (shape : WaveShape) (notes : List Note) (sample_rate : ℝ)
    (sample_clock : ℝ) : Nat → List ℝ
  | 0 => []
  | n + 1 =>
      mix_sample shape notes sample_clock sample_rate ::
        render_loop shape notes sample_rate (step_clock sample_rate sample_clock) n

/-- The lock-relevant actions of one render-callback invocation. -/
inductive RenderAction where
  | lockAcquire
  | snapshotNotes
  | synthLoop (buffer_len : Nat)
  | lockRelease
deriving DecidableEq

/-- The order of actions in one invocation of the render-callback closure in
`start_audio`: `state.lock()` at the top of the closure binds the mutex
guard, the note list is collected (a `Vec` of references borrowing from the
guard), the per-sample loop fills all `buffer_len` slots reading
`state.wave_shape` through the guard, and the guard is dropped only when the
closure returns. -/
def render_callback_actions (buffer_len : Nat) : List RenderAction :=
  [.lockAcquire, .snapshotNotes, .synthLoop buffer_len, .lockRelease]

def RenderAction.is_lock_release : RenderAction → Bool
  | .lockRelease => true
  | _ => false

def RenderAction.is_synth_loop : RenderAction → Bool
  | .synthLoop _ => true
  | _ => false

/-- The shared lock is released before the per-sample synthesis loop runs:
the release action occurs strictly earlier in the trace than the synthesis
loop. -/
def lock_released_before_synth (trace : List RenderAction) : Bool :=
  match trace.findIdx? RenderAction.is_lock_release,
      trace.findIdx? RenderAction.is_synth_loop with
  | some i, some j => decide (i < j)
  | _, _ => false

/-- The spec's reference formula for the waveform generator, written from the
spec's words: Sine is `sin(2π · clock · freq / sample_rate)`; the other
shapes use `phase = (clock · freq / sample_rate) mod 1` (mathematical
fractional part). -/
noncomputable def spec_sample (shape : WaveShape)
    (clock_position frequency sample_rate : ℝ) : ℝ :=
  match shape with
  | .Sine => Real.sin (2 * Real.pi * clock_position * frequency / sample_rate)
  | .Saw => 2 * Int.fract (clock_position * frequency / sample_rate) - 1
  | .Square =>
      if Int.fract (clock_position * frequency / sample_rate) < 0.5 then 1 else -1
  | .Triangle =>
      4 * |Int.fract (clock_position * frequency / sample_rate) - 0.5| - 1

lemma rustRem1_eq_fract (x : ℝ) (hx : 0 ≤ x) : rustRem1 x = Int.fract x := by
  rw [rustRem1, Int.fract, if_pos hx]

lemma rustRem1_nonneg (x : ℝ) (hx : 0 ≤ x) : 0 ≤ rustRem1 x := by
  rw [rustRem1_eq_fract x hx]; exact Int.fract_nonneg x

lemma rustRem1_lt_one (x : ℝ) (hx : 0 ≤ x) : rustRem1 x < 1 := by
  rw [rustRem1_eq_fract x hx]; exact Int.fract_lt_one x

lemma abs_generate_sample_le_one (shape : WaveShape) (c f sr : ℝ)
    (hc : 0 ≤ c) (hf : 0 ≤ f) (hsr : 0 ≤ sr) :
    |shape.generate_sample c f sr| ≤ 1 := by
  have hphase : 0 ≤ c * f / sr := by positivity
  have h1 := rustRem1_nonneg _ hphase
  have h2 := rustRem1_lt_one _ hphase
  cases shape with
  | Sine =>
      exact abs_le.mpr ⟨Real.neg_one_le_sin _, Real.sin_le_one _⟩
  | Saw =>
      simp only [WaveShape.generate_sample]
      rw [abs_le]
      constructor <;> nlinarith
  | Square =>
      simp only [WaveShape.generate_sample]
      split <;> norm_num
  | Triangle =>
      simp only [WaveShape.generate_sample]
      have h3 : |rustRem1 (c * f / sr) - 0.5| ≤ 0.5 := by
        rw [abs_le]; constructor <;> nlinarith
      have h4 : 0 ≤ |rustRem1 (c * f / sr) - 0.5| := abs_nonneg _
      rw [abs_le]
      constructor <;> nlinarith

/-- C1: the claim says the render-side accessor releases the shared lock
before the per-sample synthesis loop runs; in the code the mutex guard taken
at the top of the callback closure lives until the closure returns, so for no
buffer length does the release precede the synthesis loop. -/
theorem render_callback_holds_lock_across_synth (buffer_len : Nat) :
    lock_released_before_synth (render_callback_actions buffer_len) = false := rfl

/-- C2: `generate_sample` computes exactly the spec's reference formula for
each shape, on the generator's domain (clock position ≥ 0, frequency > 0,
sample rate > 0): Sine is `sin(2π · clock · freq / sr)`, and with
`phase = (clock · freq / sr) mod 1`, Saw is `2·phase − 1`, Square is `+1`
when `phase < 0.5` and `−1` otherwise, Triangle is `4·|phase − 0.5| − 1`. -/
theorem generate_sample_matches_reference_formula (shape : WaveShape)
    (clock freq sr : ℝ) (hc : 0 ≤ clock) (hf : 0 < freq) (hsr : 0 < sr) :
    shape.generate_sample clock freq sr = spec_sample shape clock freq sr := by
  have hphase : 0 ≤ clock * freq / sr := by positivity
  cases shape with
  | Sine =>
      simp only [WaveShape.generate_sample, spec_sample]
      congr 1
      ring
  | Saw =>
      simp only [WaveShape.generate_sample, spec_sample]
      rw [rustRem1_eq_fract _ hphase]
  | Square =>
      simp only [WaveShape.generate_sample, spec_sample]
      rw [rustRem1_eq_fract _ hphase]
  | Triangle =>
      simp only [WaveShape.generate_sample, spec_sample]
      rw [rustRem1_eq_fract _ hphase]

/-- Witness for C2 at shape = Saw, clock = 0, freq = 1, sr = 1. -/
theorem generate_sample_matches_reference_formula_witness :
    (0:ℝ) ≤ 0 ∧ (0:ℝ) < 1 ∧
      WaveShape.Saw.generate_sample 0 1 1 = spec_sample WaveShape.Saw 0 1 1 :=
  ⟨le_refl 0, one_pos,
    generate_sample_matches_reference_formula WaveShape.Saw 0 1 1
      (le_refl 0) one_pos one_pos⟩

/-- C3: for all four shapes, `generate_sample` returns a value in [-1, 1]
for every frequency > 0, sample rate > 0 and clock position ≥ 0. -/
theorem generate_sample_bounded (shape : WaveShape) (clock freq sr : ℝ)
    (hf : 0 < freq) (hsr : 0 < sr) (hc : 0 ≤ clock) :
    -1 ≤ shape.generate_sample clock freq sr ∧
      shape.generate_sample clock freq sr ≤ 1 :=
  abs_le.mp (abs_generate_sample_le_one shape clock freq sr hc hf.le hsr.le)

/-- Witness for C3 at shape = Triangle, clock = 0, freq = 1, sr = 1. -/
theorem generate_sample_bounded_witness :
    (0:ℝ) < 1 ∧ (0:ℝ) ≤ 0 ∧
      (-1 ≤ WaveShape.Triangle.generate_sample 0 1 1 ∧
        WaveShape.Triangle.generate_sample 0 1 1 ≤ 1) :=
  ⟨one_pos, le_refl 0,
    generate_sample_bounded WaveShape.Triangle 0 1 1 one_pos one_pos (le_refl 0)⟩

lemma Note.freq_pos (note : Note) : 0 < note.freq := by
  cases note <;> norm_num [Note.freq]

lemma foldl_add_generate (shape : WaveShape) (c sr : ℝ) (l : List Note) (a : ℝ) :
    l.foldl (fun acc note => acc + shape.generate_sample c note.freq sr) a
      = a + (l.map (fun note => shape.generate_sample c note.freq sr)).sum := by
  induction l generalizing a with
  | nil => simp
  | cons x xs ih =>
      simp only [List.foldl_cons, List.map_cons, List.sum_cons, ih]
      ring

lemma mix_sample_eq_sum (shape : WaveShape) (notes : List Note) (c sr : ℝ)
    (h : notes ≠ []) :
    mix_sample shape notes c sr
      = (notes.map (fun note => shape.generate_sample c note.freq sr)).sum
          / (notes.length : ℝ) * 0.2 := by
  rw [mix_sample]
  simp only [foldl_add_generate, zero_add]
  rw [if_neg (by simpa using h)]

lemma abs_list_sum_le (l : List ℝ) (h : ∀ x ∈ l, |x| ≤ 1) :
    |l.sum| ≤ (l.length : ℝ) := by
  induction l with
  | nil => simp
  | cons x xs ih =>
      simp only [List.sum_cons, List.length_cons]
      have hx := h x (List.mem_cons_self x xs)
      have hxs := ih (fun y hy => h y (List.mem_cons_of_mem x hy))
      have habs := abs_add x xs.sum
      push_cast
      linarith

/-- C4: each output slot of the render loop is exactly 0 when the snapshotted
voice list is empty; otherwise `mix_sample` is the sum of `generate_sample`
over the snapshotted voices divided by the voice count and multiplied by the
fixed attenuation 0.2; and with two voices it is the average of the two
generator outputs at the same clock position scaled by 0.2. -/
theorem mix_sample_silence_and_average :
    (∀ (shape : WaveShape) (sr c : ℝ) (n : Nat) (x : ℝ),
        x ∈ render_loop shape [] sr c n → x = 0) ∧
    (∀ (shape : WaveShape) (notes : List Note) (c sr : ℝ), notes ≠ [] →
        mix_sample shape notes c sr
          = (notes.map (fun note => shape.generate_sample c note.freq sr)).sum
              / (notes.length : ℝ) * 0.2) ∧
    (∀ (shape : WaveShape) (n1 n2 : Note) (c sr : ℝ),
        mix_sample shape [n1, n2] c sr
          = (shape.generate_sample c n1.freq sr
              + shape.generate_sample c n2.freq sr) / 2 * 0.2) := by
  refine ⟨?_, ?_, ?_⟩
  · intro shape sr c n
    induction n generalizing c with
    | zero => intro x hx; simp [render_loop] at hx
    | succ k ih =>
        intro x hx
        rw [render_loop] at hx
        rcases List.mem_cons.mp hx with h | h
        · rw [h]; rfl
        · exact ih _ x h
  · intro shape notes c sr h
    exact mix_sample_eq_sum shape notes c sr h
  · intro shape n1 n2 c sr
    rw [mix_sample_eq_sum shape [n1, n2] c sr (by simp)]
    norm_num

/-- Witness for C4's nonempty-list conjunct at shape = Sine,
notes = [A4], clock = 0, sample rate = 1. -/
theorem mix_sample_silence_and_average_witness :
    ([Note.A4] ≠ ([] : List Note)) ∧
      mix_sample WaveShape.Sine [Note.A4] 0 1
        = (([Note.A4].map
            (fun note => WaveShape.Sine.generate_sample 0 note.freq 1)).sum
            / (([Note.A4] : List Note).length : ℝ) * 0.2) :=
  ⟨by simp,
    mix_sample_silence_and_average.2.1 WaveShape.Sine [Note.A4] 0 1 (by simp)⟩

/-- C5: with a nonzero number of snapshotted voices, any shape, any clock
position ≥ 0 and any sample rate > 0, the output sample computed by the
render loop body satisfies `|output| ≤ 0.2`. -/
theorem mix_sample_gain_bound (shape : WaveShape) (notes : List Note)
    (c sr : ℝ) (h : notes ≠ []) (hc : 0 ≤ c) (hsr : 0 < sr) :
    |mix_sample shape notes c sr| ≤ 0.2 := by
  have hlen : 0 < (notes.length : ℝ) := by
    exact_mod_cast List.length_pos.mpr h
  have hsum : |(notes.map
      (fun note => shape.generate_sample c note.freq sr)).sum|
      ≤ (notes.length : ℝ) := by
    have := abs_list_sum_le
      (notes.map (fun note => shape.generate_sample c note.freq sr))
      (by
        intro x hx
        rcases List.mem_map.mp hx with ⟨note, _, rfl⟩
        exact abs_generate_sample_le_one shape c note.freq sr hc
          (Note.freq_pos note).le hsr.le)
    simpa [List.length_map] using this
  rw [mix_sample_eq_sum shape notes c sr h]
  have h1 : |(notes.map
      (fun note => shape.generate_sample c note.freq sr)).sum
      / (notes.length : ℝ)| ≤ 1 := by
    rw [abs_div, abs_of_pos hlen, div_le_one hlen]
    exact hsum
  calc |(notes.map (fun note => shape.generate_sample c note.freq sr)).sum
          / (notes.length : ℝ) * 0.2|
      = |(notes.map (fun note => shape.generate_sample c note.freq sr)).sum
          / (notes.length : ℝ)| * 0.2 := by
        rw [abs_mul]; norm_num
    _ ≤ 1 * 0.2 := by
        have h02 : (0:ℝ) ≤ 0.2 := by norm_num
        exact mul_le_mul_of_nonneg_right h1 h02
    _ = 0.2 := one_mul _

/-- Witness for C5 at shape = Square, notes = [A4], clock = 0, sr = 1. -/
theorem mix_sample_gain_bound_witness :
    ([Note.A4] ≠ ([] : List Note)) ∧ (0:ℝ) ≤ 0 ∧ (0:ℝ) < 1 ∧
      |mix_sample WaveShape.Square [Note.A4] 0 1| ≤ 0.2 :=
  ⟨by simp, le_refl 0, one_pos,
    mix_sample_gain_bound WaveShape.Square [Note.A4] 0 1 (by simp)
      (le_refl 0) one_pos⟩

/-- C6: starting from any clock with `0 ≤ clock < sample_rate`, the
per-sample step keeps the invariant; when `clock + 1` stays below the rate
the step is exactly `+1`; when the clock reaches the rate (stepping from
`sample_rate − 1`) it resets to exactly 0; and after any number of render
iterations the invariant `0 ≤ clock < sample_rate` still holds. -/
theorem sample_clock_invariant (sr c : ℝ) (h0 : 0 ≤ c) (h1 : c < sr) :
    (0 ≤ step_clock sr c ∧ step_clock sr c < sr) ∧
    (c + 1 < sr → step_clock sr c = c + 1) ∧
    step_clock sr (sr - 1) = 0 ∧
    (∀ n : Nat, 0 ≤ clockIter sr c n ∧ clockIter sr c n < sr) := by
  have hsr : 0 < sr := lt_of_le_of_lt h0 h1
  have hstep : ∀ x : ℝ, 0 ≤ x → x < sr →
      0 ≤ step_clock sr x ∧ step_clock sr x < sr := by
    intro x hx hxs
    rw [step_clock]
    split
    · exact ⟨le_refl 0, hsr⟩
    · next hcond =>
        push_neg at hcond
        exact ⟨by linarith, hcond⟩
  have hiter : ∀ (n : Nat) (x : ℝ), 0 ≤ x → x < sr →
      0 ≤ clockIter sr x n ∧ clockIter sr x n < sr := by
    intro n
    induction n with
    | zero => intro x hx hxs; exact ⟨hx, hxs⟩
    | succ k ih =>
        intro x hx hxs
        rw [clockIter]
        have hs := hstep x hx hxs
        exact ih _ hs.1 hs.2
  refine ⟨hstep c h0 h1, ?_, ?_, fun n => hiter n c h0 h1⟩
  · intro hlt
    rw [step_clock, if_neg (not_le.mpr hlt)]
  · rw [step_clock, if_pos (by linarith : sr - 1 + 1 ≥ sr)]

/-- Witness for C6 at sample rate 2 and clock 0. -/
theorem sample_clock_invariant_witness :
    (0:ℝ) ≤ 0 ∧ (0:ℝ) < 2 ∧
      ((0 ≤ step_clock 2 0 ∧ step_clock 2 0 < 2) ∧
        ((0:ℝ) + 1 < 2 → step_clock 2 0 = 0 + 1) ∧
        step_clock 2 (2 - 1) = 0 ∧
        (∀ n : Nat, 0 ≤ clockIter 2 0 n ∧ clockIter 2 0 n < 2)) :=
  ⟨le_refl 0, by norm_num,
    sample_clock_invariant 2 0 (le_refl 0) (by norm_num)⟩

/-- C7: voice insertion and removal are idempotent set operations — pressing
a key whose note is already active leaves the state (and hence the mixed
output computed from its snapshot) identical to a single press, and releasing
a key whose note is not active leaves the state unchanged. -/
theorem voice_set_idempotent :
    (∀ (st : State) (key : Key),
        App.update (App.update st (Message.KeyPressed key)) (Message.KeyPressed key)
          = App.update st (Message.KeyPressed key)) ∧
    (∀ (st : State) (key : Key),
        (∀ note, Note.try_from key = some note → note ∉ st.active_notes) →
        App.update st (Message.KeyReleased key) = st) ∧
    (∀ (st : State) (key : Key) (shape : WaveShape) (c sr : ℝ),
        mix_sample shape
            ((App.update (App.update st (Message.KeyPressed key))
                (Message.KeyPressed key)).active_notes.toList) c sr
          = mix_sample shape
              ((App.update st (Message.KeyPressed key)).active_notes.toList) c sr) := by
  have hpress : ∀ (st : State) (key : Key),
      App.update (App.update st (Message.KeyPressed key)) (Message.KeyPressed key)
        = App.update st (Message.KeyPressed key) := by
    intro st key
    cases h : Note.try_from key with
    | none => simp [App.update, h]
    | some note => simp [App.update, h, Finset.insert_idem]
  refine ⟨hpress, ?_, ?_⟩
  · intro st key hnot
    cases h : Note.try_from key with
    | none => simp [App.update, h]
    | some note =>
        simp [App.update, h, Finset.erase_eq_of_not_mem (hnot note h)]
  · intro st key shape c sr
    rw [hpress st key]

/-- Witness for C7's release conjunct: releasing "q" on the empty state
leaves the state unchanged. -/
theorem voice_set_idempotent_witness :
    (∀ note, Note.try_from (Key.Character "q") = some note →
        note ∉ (State.mk ∅ WaveShape.Sine).active_notes) ∧
      App.update (State.mk ∅ WaveShape.Sine)
          (Message.KeyReleased (Key.Character "q"))
        = State.mk ∅ WaveShape.Sine :=
  ⟨fun note _ => by simp,
    voice_set_idempotent.2.1 (State.mk ∅ WaveShape.Sine) (Key.Character "q")
      (fun note _ => by simp)⟩

/-- C9: the key-to-note mapping is an exact, case-sensitive match — exactly
the 30 listed strings resolve to notes; every other string (including "Q"),
every named key and the unidentified key resolve to none, and pressing or
releasing an unresolvable key leaves the state unchanged. -/
theorem key_mapping_exact :
    (∀ s ∈ mapped_keys, (Note.try_from (Key.Character s)).isSome = true) ∧
    (∀ s : String, s ∉ mapped_keys → Note.try_from (Key.Character s) = none) ∧
    Note.try_from (Key.Character "Q") = none ∧
    (∀ idx : Nat, Note.try_from (Key.Named idx) = none) ∧
    Note.try_from Key.Unidentified = none ∧
    (∀ (st : State) (key : Key), Note.try_from key = none →
        App.update st (Message.KeyPressed key) = st ∧
        App.update st (Message.KeyReleased key) = st) := by
  refine ⟨by decide, ?_, by decide, fun idx => rfl, rfl, ?_⟩
  · intro s hs
    simp only [mapped_keys, List.mem_cons, List.not_mem_nil, or_false,
      not_or] at hs
    obtain ⟨h1, h2, h3, h4, h5, h6, h7, h8, h9, h10, h11, h12, h13, h14, h15, h16, h17, h18, h19, h20, h21, h22, h23, h24, h25, h26, h27, h28, h29, h30⟩ := hs
    simp only [Note.try_from, h1, h2, h3, h4, h5, h6, h7, h8, h9, h10, h11, h12, h13, h14, h15, h16, h17, h18, h19, h20, h21, h22, h23, h24, h25, h26, h27, h28, h29, h30, if_false]
  · intro st key h
    constructor <;> simp [App.update, h]

/-- Witness for C9's unmapped-string conjunct at the uppercase string "A". -/
theorem key_mapping_exact_witness :
    ("A" ∉ mapped_keys) ∧ Note.try_from (Key.Character "A") = none :=
  ⟨by decide, key_mapping_exact.2.1 "A" (by decide)⟩

/-- C10: each message mutates at most its own field — key presses and
releases never change the selected shape, the four shape-selection messages
never change the active-voice set, and the None message leaves the whole
state unchanged. -/
theorem update_frame_effects :
    (∀ (st : State) (key : Key),
        (App.update st (Message.KeyPressed key)).wave_shape = st.wave_shape) ∧
    (∀ (st : State) (key : Key),
        (App.update st (Message.KeyReleased key)).wave_shape = st.wave_shape) ∧
    (∀ st : State,
        (App.update st Message.SineSelected).active_notes = st.active_notes) ∧
    (∀ st : State,
        (App.update st Message.SawSelected).active_notes = st.active_notes) ∧
    (∀ st : State,
        (App.update st Message.TriangleSelected).active_notes = st.active_notes) ∧
    (∀ st : State,
        (App.update st Message.SquareSelected).active_notes = st.active_notes) ∧
    (∀ st : State, App.update st Message.None = st) := by
  refine ⟨?_, ?_, fun st => rfl, fun st => rfl, fun st => rfl, fun st => rfl,
    fun st => rfl⟩
  · intro st key
    cases h : Note.try_from key with
    | none => simp [App.update, h]
    | some note => simp [App.update, h]
  · intro st key
    cases h : Note.try_from key with
    | none => simp [App.update, h]
    | some note => simp [App.update, h]

/-- Semitone offset of each note from A4 = 440 Hz (the spec's equal-
temperament reference): C3 is −21 semitones below A4, F5 is +8 above. -/
def Note.semitone : Note → ℤ
  | .C3 => -21
  | .CSharp3 => -20
  | .D3 => -19
  | .DSharp3 => -18
  | .E3 => -17
  | .F3 => -16
  | .FSharp3 => -15
  | .G3 => -14
  | .GSharp3 => -13
  | .A3 => -12
  | .ASharp3 => -11
  | .B3 => -10
  | .C4 => -9
  | .CSharp4 => -8
  | .D4 => -7
  | .DSharp4 => -6
  | .E4 => -5
  | .F4 => -4
  | .FSharp4 => -3
  | .G4 => -2
  | .GSharp4 => -1
  | .A4 => 0
  | .ASharp4 => 1
  | .B4 => 2
  | .C5 => 3
  | .CSharp5 => 4
  | .D5 => 5
  | .DSharp5 => 6
  | .E5 => 7
  | .F5 => 8

/-- Rounding a real to two decimal places (round half up). -/
noncomputable def round2 (x : ℝ) : ℝ := ((round (100 * x) : ℤ) : ℝ) / 100

/-- The spec's equal-tempered reference frequency for semitone offset `n`
from A4: `440 · 2^(n/12)`. -/
noncomputable def equal_tempered (n : ℤ) : ℝ := 440 * (2:ℝ) ^ ((n : ℝ) / 12)

lemma rpow_twelfth_pow (k : ℤ) :
    ((2:ℝ) ^ ((k:ℝ) / 12)) ^ (12:ℕ) = (2:ℝ) ^ k := by
  rw [← Real.rpow_natCast ((2:ℝ) ^ ((k:ℝ) / 12)) 12,
    ← Real.rpow_mul (by norm_num : (0:ℝ) ≤ 2)]
  rw [show (k:ℝ) / 12 * ((12:ℕ):ℝ) = ((k:ℤ):ℝ) by push_cast; ring]
  exact Real.rpow_intCast 2 k

lemma le_scaled_rpow_iff (a : ℝ) (k : ℤ) (ha : 0 ≤ a) :
    a ≤ 44000 * (2:ℝ) ^ ((k:ℝ) / 12) ↔
      a ^ (12:ℕ) ≤ 44000 ^ 12 * (2:ℝ) ^ k := by
  have hb : (0:ℝ) < 44000 * (2:ℝ) ^ ((k:ℝ) / 12) := by positivity
  constructor
  · intro h
    calc a ^ (12:ℕ) ≤ (44000 * (2:ℝ) ^ ((k:ℝ) / 12)) ^ (12:ℕ) :=
          pow_le_pow_left₀ ha h 12
      _ = 44000 ^ 12 * (2:ℝ) ^ k := by rw [mul_pow, rpow_twelfth_pow]
  · intro h
    by_contra hlt
    push_neg at hlt
    have hp := pow_lt_pow_left₀ hlt hb.le (by norm_num : (12:ℕ) ≠ 0)
    rw [mul_pow, rpow_twelfth_pow] at hp
    linarith

lemma scaled_rpow_lt_iff (a : ℝ) (k : ℤ) (ha : 0 ≤ a) :
    44000 * (2:ℝ) ^ ((k:ℝ) / 12) < a ↔
      44000 ^ 12 * (2:ℝ) ^ k < a ^ (12:ℕ) := by
  have hb : (0:ℝ) < 44000 * (2:ℝ) ^ ((k:ℝ) / 12) := by positivity
  constructor
  · intro h
    have hp := pow_lt_pow_left₀ h hb.le (by norm_num : (12:ℕ) ≠ 0)
    rwa [mul_pow, rpow_twelfth_pow] at hp
  · intro h
    by_contra hle
    push_neg at hle
    have hp := pow_le_pow_left₀ ha hle 12
    rw [mul_pow, rpow_twelfth_pow] at hp
    linarith

lemma hundred_equal_tempered (k : ℤ) :
    100 * equal_tempered k = 44000 * (2:ℝ) ^ ((k:ℝ) / 12) := by
  rw [equal_tempered]; ring

lemma round2_equal_tempered (k m : ℤ) (hm : (0:ℝ) < (m:ℝ) - 1/2)
    (h1 : ((m:ℝ) - 1/2) ^ (12:ℕ) ≤ 44000 ^ 12 * (2:ℝ) ^ k)
    (h2 : 44000 ^ 12 * (2:ℝ) ^ k < ((m:ℝ) + 1/2) ^ (12:ℕ)) :
    round2 (equal_tempered k) = (m:ℝ) / 100 := by
  have hb1 : (m:ℝ) - 1/2 ≤ 44000 * (2:ℝ) ^ ((k:ℝ) / 12) :=
    (le_scaled_rpow_iff ((m:ℝ) - 1/2) k hm.le).mpr h1
  have hb2 : 44000 * (2:ℝ) ^ ((k:ℝ) / 12) < (m:ℝ) + 1/2 :=
    (scaled_rpow_lt_iff ((m:ℝ) + 1/2) k (by linarith)).mpr h2
  have hr : round (100 * equal_tempered k) = m := by
    rw [round_eq, Int.floor_eq_iff]
    constructor
    · rw [hundred_equal_tempered]; linarith
    · rw [hundred_equal_tempered]; linarith
  rw [round2, hr]

lemma floor2_equal_tempered (k m : ℤ) (hm : (0:ℝ) ≤ (m:ℝ))
    (h1 : ((m:ℝ)) ^ (12:ℕ) ≤ 44000 ^ 12 * (2:ℝ) ^ k)
    (h2 : 44000 ^ 12 * (2:ℝ) ^ k < ((m:ℝ) + 1) ^ (12:ℕ)) :
    ⌊100 * equal_tempered k⌋ = m := by
  have hb1 : (m:ℝ) ≤ 44000 * (2:ℝ) ^ ((k:ℝ) / 12) :=
    (le_scaled_rpow_iff (m:ℝ) k hm).mpr h1
  have hb2 : 44000 * (2:ℝ) ^ ((k:ℝ) / 12) < (m:ℝ) + 1 :=
    (scaled_rpow_lt_iff ((m:ℝ) + 1) k (by linarith)).mpr h2
  rw [Int.floor_eq_iff]
  constructor
  · rw [hundred_equal_tempered]; linarith
  · rw [hundred_equal_tempered]; linarith

/-- C8 counterexample: at E5 the table stores 659.25, but the equal-
tempered frequency `440 · 2^(7/12) = 659.2551…` rounded to two decimals is
659.26, so the table entry is not the rounded reference value. -/
theorem note_freq_E5_not_rounded :
    Note.freq Note.E5 ≠ round2 (equal_tempered (Note.semitone Note.E5)) := by
  rw [show Note.semitone Note.E5 = 7 from rfl,
    round2_equal_tempered 7 65926 (by norm_num) (by norm_num) (by norm_num)]
  norm_num [Note.freq]

/-- C8 (amended): every Note Table frequency except E5 equals the equal-
tempered frequency `440 · 2^(n/12)` (n the semitone offset from A4 = 440 Hz)
rounded to two decimal places; the E5 entry 659.25 is that frequency
truncated (floored) to two decimals instead of rounded; and the key "q"
resolves to C4 at 261.63 Hz. -/
theorem note_freq_equal_tempered :
    (∀ n : Note, n ≠ Note.E5 →
        n.freq = round2 (equal_tempered n.semitone)) ∧
    Note.freq Note.E5 =
      ((⌊100 * equal_tempered (Note.semitone Note.E5)⌋ : ℤ) : ℝ) / 100 ∧
    Note.try_from (Key.Character "q") = some Note.C4 ∧
    Note.freq Note.C4 = 261.63 := by
  refine ⟨?_, ?_, by decide, by norm_num [Note.freq]⟩
  · intro n hn
    cases n with
    | C3 =>
        rw [show Note.semitone Note.C3 = -21 from rfl,
          round2_equal_tempered (-21) 13081 (by norm_num) (by norm_num)
            (by norm_num)]
        norm_num [Note.freq]
    | CSharp3 =>
        rw [show Note.semitone Note.CSharp3 = -20 from rfl,
          round2_equal_tempered (-20) 13859 (by norm_num) (by norm_num)
            (by norm_num)]
        norm_num [Note.freq]
    | D3 =>
        rw [show Note.semitone Note.D3 = -19 from rfl,
          round2_equal_tempered (-19) 14683 (by norm_num) (by norm_num)
            (by norm_num)]
        norm_num [Note.freq]
    | DSharp3 =>
        rw [show Note.semitone Note.DSharp3 = -18 from rfl,
          round2_equal_tempered (-18) 15556 (by norm_num) (by norm_num)
            (by norm_num)]
        norm_num [Note.freq]
    | E3 =>
        rw [show Note.semitone Note.E3 = -17 from rfl,
          round2_equal_tempered (-17) 16481 (by norm_num) (by norm_num)
            (by norm_num)]
        norm_num [Note.freq]
    | F3 =>
        rw [show Note.semitone Note.F3 = -16 from rfl,
          round2_equal_tempered (-16) 17461 (by norm_num) (by norm_num)
            (by norm_num)]
        norm_num [Note.freq]
    | FSharp3 =>
        rw [show Note.semitone Note.FSharp3 = -15 from rfl,
          round2_equal_tempered (-15) 18500 (by norm_num) (by norm_num)
            (by norm_num)]
        norm_num [Note.freq]
    | G3 =>
        rw [show Note.semitone Note.G3 = -14 from rfl,
          round2_equal_tempered (-14) 19600 (by norm_num) (by norm_num)
            (by norm_num)]
        norm_num [Note.freq]
    | GSharp3 =>
        rw [show Note.semitone Note.GSharp3 = -13 from rfl,
          round2_equal_tempered (-13) 20765 (by norm_num) (by norm_num)
            (by norm_num)]
        norm_num [Note.freq]
    | A3 =>
        rw [show Note.semitone Note.A3 = -12 from rfl,
          round2_equal_tempered (-12) 22000 (by norm_num) (by norm_num)
            (by norm_num)]
        norm_num [Note.freq]
    | ASharp3 =>
        rw [show Note.semitone Note.ASharp3 = -11 from rfl,
          round2_equal_tempered (-11) 23308 (by norm_num) (by norm_num)
            (by norm_num)]
        norm_num [Note.freq]
    | B3 =>
        rw [show Note.semitone Note.B3 = -10 from rfl,
          round2_equal_tempered (-10) 24694 (by norm_num) (by norm_num)
            (by norm_num)]
        norm_num [Note.freq]
    | C4 =>
        rw [show Note.semitone Note.C4 = -9 from rfl,
          round2_equal_tempered (-9) 26163 (by norm_num) (by norm_num)
            (by norm_num)]
        norm_num [Note.freq]
    | CSharp4 =>
        rw [show Note.semitone Note.CSharp4 = -8 from rfl,
          round2_equal_tempered (-8) 27718 (by norm_num) (by norm_num)
            (by norm_num)]
        norm_num [Note.freq]
    | D4 =>
        rw [show Note.semitone Note.D4 = -7 from rfl,
          round2_equal_tempered (-7) 29366 (by norm_num) (by norm_num)
            (by norm_num)]
        norm_num [Note.freq]
    | DSharp4 =>
        rw [show Note.semitone Note.DSharp4 = -6 from rfl,
          round2_equal_tempered (-6) 31113 (by norm_num) (by norm_num)
            (by norm_num)]
        norm_num [Note.freq]
    | E4 =>
        rw [show Note.semitone Note.E4 = -5 from rfl,
          round2_equal_tempered (-5) 32963 (by norm_num) (by norm_num)
            (by norm_num)]
        norm_num [Note.freq]
    | F4 =>
        rw [show Note.semitone Note.F4 = -4 from rfl,
          round2_equal_tempered (-4) 34923 (by norm_num) (by norm_num)
            (by norm_num)]
        norm_num [Note.freq]
    | FSharp4 =>
        rw [show Note.semitone Note.FSharp4 = -3 from rfl,
          round2_equal_tempered (-3) 36999 (by norm_num) (by norm_num)
            (by norm_num)]
        norm_num [Note.freq]
    | G4 =>
        rw [show Note.semitone Note.G4 = -2 from rfl,
          round2_equal_tempered (-2) 39200 (by norm_num) (by norm_num)
            (by norm_num)]
        norm_num [Note.freq]
    | GSharp4 =>
        rw [show Note.semitone Note.GSharp4 = -1 from rfl,
          round2_equal_tempered (-1) 41530 (by norm_num) (by norm_num)
            (by norm_num)]
        norm_num [Note.freq]
    | A4 =>
        rw [show Note.semitone Note.A4 = 0 from rfl,
          round2_equal_tempered 0 44000 (by norm_num) (by norm_num)
            (by norm_num)]
        norm_num [Note.freq]
    | ASharp4 =>
        rw [show Note.semitone Note.ASharp4 = 1 from rfl,
          round2_equal_tempered 1 46616 (by norm_num) (by norm_num)
            (by norm_num)]
        norm_num [Note.freq]
    | B4 =>
        rw [show Note.semitone Note.B4 = 2 from rfl,
          round2_equal_tempered 2 49388 (by norm_num) (by norm_num)
            (by norm_num)]
        norm_num [Note.freq]
    | C5 =>
        rw [show Note.semitone Note.C5 = 3 from rfl,
          round2_equal_tempered 3 52325 (by norm_num) (by norm_num)
            (by norm_num)]
        norm_num [Note.freq]
    | CSharp5 =>
        rw [show Note.semitone Note.CSharp5 = 4 from rfl,
          round2_equal_tempered 4 55437 (by norm_num) (by norm_num)
            (by norm_num)]
        norm_num [Note.freq]
    | D5 =>
        rw [show Note.semitone Note.D5 = 5 from rfl,
          round2_equal_tempered 5 58733 (by norm_num) (by norm_num)
            (by norm_num)]
        norm_num [Note.freq]
    | DSharp5 =>
        rw [show Note.semitone Note.DSharp5 = 6 from rfl,
          round2_equal_tempered 6 62225 (by norm_num) (by norm_num)
            (by norm_num)]
        norm_num [Note.freq]
    | E5 => exact absurd rfl hn
    | F5 =>
        rw [show Note.semitone Note.F5 = 8 from rfl,
          round2_equal_tempered 8 69846 (by norm_num) (by norm_num)
            (by norm_num)]
        norm_num [Note.freq]
  · rw [show Note.semitone Note.E5 = 7 from rfl,
      floor2_equal_tempered 7 65925 (by norm_num) (by norm_num) (by norm_num)]
    norm_num [Note.freq]

/-- Witness for C8's amended per-note conjunct at C4. -/
theorem note_freq_equal_tempered_witness :
    (Note.C4 ≠ Note.E5) ∧
      Note.freq Note.C4 = round2 (equal_tempered (Note.semitone Note.C4)) :=
  ⟨by decide, note_freq_equal_tempered.1 Note.C4 (by decide)⟩
